import Mathlib

/-
Shallow embedding of `torch_geometric/nn/conv/message_passing2.py`
(classes `Inspector` and `MessagePassing`), and proofs about the
format-negotiation and argument-routing engine it implements.

Conventions of the embedding:
* Python strings become Lean `String`s; Python `None` in an `Optional[str]`
  slot becomes `Option.none`.
* Python dictionaries with string keys become association lists
  (`List (String × _)`) with first-match lookup (`dictGet`) and
  in-place-or-append update (`dictSet`), matching `dict` semantics for the
  unique-key dictionaries the source builds.
* A Python function that can `raise` is embedded with an explicit error
  constructor or `Except`; a Python function that `return`s an exception
  OBJECT (without raising it) is embedded as a plain return of a dedicated
  constructor, so that return-of-an-error-object and raising stay
  distinguishable in the model.
-/

/-- Lookup in an association list with string-like keys: the value of the
first pair whose key matches, as Python `dict.get` on the unique-key
dictionaries the source builds. -/
def dictGet {α : Type} (l : List (String × α)) (k : String) : Option α :=
  match l with
  | [] => none
  | (k', v) :: rest => if k' = k then some v else dictGet rest k

/-- Update in an association list: replace the value of the first pair whose
key matches, or append the pair, as Python `d[k] = v`. -/
def dictSet {α : Type} (l : List (String × α)) (k : String) (v : α) :
    List (String × α) :=
  match l with
  | [] => [(k, v)]
  | (k', v') :: rest => if k' = k then (k, v) :: rest else (k', v') :: dictSet rest k v

/-- A torch dtype, as far as `get_adj_format` discriminates on it:
`torch.long` (= int64) against everything else. -/
inductive TorchDtype : Type
  | int64 : TorchDtype
  | float32 : TorchDtype
  | otherDtype : TorchDtype
  deriving DecidableEq, Repr

/-- A dense `torch.Tensor`, as far as `get_adj_format` inspects one:
its shape (`dim()` is the length, `size(0)` the head) and its dtype. -/
structure Tensor : Type where
  shape : List Nat
  dtype : TorchDtype
  deriving DecidableEq, Repr

/-- The `adj_type` argument of `MessagePassing.get_adj_format` / `propagate`
(source type `Union[torch.Tensor, SparseTensor]`, but any Python object can
arrive): a `torch.Tensor`, a `torch_sparse.SparseTensor` (opaque: the source
only does an `isinstance` test on it), or any other object
(`torch.is_tensor` false, not a `SparseTensor`). -/
inductive AdjObj : Type
  | tensor (t : Tensor) : AdjObj
  | sparseTensor : AdjObj
  | nonTensor : AdjObj
  deriving DecidableEq, Repr

/-- What `get_adj_format` (source lines 111-136) evaluates to.  The source
never raises in this function: on unclassifiable input it executes
`return ValueError(...)` (line 128), handing the exception OBJECT back as the
return value.  `valueErrorObject` is therefore a normal return in this model;
there is no raised-exception constructor because no path of the source
function raises. -/
inductive AdjFormatReturn : Type
  | tag (s : String) : AdjFormatReturn
  | valueErrorObject (msg : String) : AdjFormatReturn
  deriving DecidableEq, Repr

/-- The message of the `ValueError` built at source lines 128-134. -/
def invalid_adj_msg : String :=
  "Encountered an invalid object for `adj_type` in `MessagePassing.propagate`. " ++
  "Supported types are (1) sparse edge indices of type `torch.LongTensor` with " ++
  "shape `[2, num_edges]`, (2) sparse adjacency matrices of type " ++
  "`torch_sparse.SparseTensor`, or (3) dense adjacency matrices of type " ++
  "`torch.Tensor`."

/-- `MessagePassing.get_adj_format` (source lines 111-136): classify the
adjacency object.  `edge_index` iff it is a tensor with `dim() == 2`,
`size(0) == 2` and dtype `torch.long`; else `sparse_adj` iff it is a
`SparseTensor`; else `dense_adj` iff it is any other tensor; otherwise the
function returns (does not raise) a `ValueError` object. -/
def get_adj_format (adj_type : AdjObj) : AdjFormatReturn :=
  match adj_type with
  | .tensor t =>
      if t.shape.length = 2 ∧ t.shape.headD 0 = 2 ∧ t.dtype = TorchDtype.int64 then
        .tag "edge_index"
      else
        .tag "dense_adj"
  | .sparseTensor => .tag "sparse_adj"
  | .nonTensor => .valueErrorObject invalid_adj_msg

/-- Class attribute `MessagePassing.adj_formats` (source line 64). -/
def adj_formats : List String := ["edge_index", "sparse", "dense"]

/-- Class attribute `MessagePassing.mp_formats` (source line 65).  Note the
source list holds `"dense"` and not `"partial"`, although the resolver
`get_mp_format` produces `"partial"` and never `"dense"`. -/
def mp_formats : List String := ["fused", "sparse", "dense"]

/-- The state of a `MessagePassing` instance that the dispatch logic reads:
the constructor arguments stored at source lines 73-79, the explain toggle
(line 97), and the set of names defined in the concrete subclass's own class
dictionary (`self.__class__.__dict__`), which is what
`Inspector.implements` (source line 57-58) consults.  The strategy cache
`__cached_mp_format__` is passed explicitly to `get_mp_format` instead of
being a field, making the cache-threading visible to the theorems. -/
structure Engine : Type where
  aggr : Option String
  flow : String
  format : Option String
  node_dim : Int
  partial_max_deg : Int
  partial_binning : Bool
  torchscript : Bool
  implemented : List String
  explain : Bool
  deriving DecidableEq, Repr

/-- Python truthiness of `self.aggr` (an `Optional[str]`): `None` and the
empty string are falsy, any other string truthy. -/
def pyTruthyAggr (aggr : Option String) : Bool :=
  match aggr with
  | none => false
  | some s => !s.isEmpty

/-- `MessagePassing.__init__` (source lines 67-98) restricted to its
validation: the four `assert` statements at lines 81-84, in source order.
On success the engine state is built with `__explain__ = False` (line 97);
a failed assertion aborts construction with an `AssertionError`. -/
def initEngine (aggr : Option String) (flow : String) (format : Option String)
    (node_dim : Int) (partial_max_deg : Int) (partial_binning : Bool)
    (torchscript : Bool) (implemented : List String) : Except String Engine :=
  if ¬ ([some "add", some "sum", some "mean", some "max", none].contains aggr) then
    Except.error "AssertionError: self.aggr"
  else if ¬ (["source_to_target", "target_to_source"].contains flow) then
    Except.error "AssertionError: self.flow"
  else if ¬ ((mp_formats.map some ++ [none]).contains format) then
    Except.error "AssertionError: self.format"
  else if node_dim < 0 then
    Except.error "AssertionError: self.node_dim"
  else
    Except.ok
      { aggr := aggr, flow := flow, format := format, node_dim := node_dim,
        partial_max_deg := partial_max_deg, partial_binning := partial_binning,
        torchscript := torchscript, implemented := implemented, explain := false }

/-- Whether an `Except` value is a successful construction. -/
def exceptOk {ε α : Type} : Except ε α → Bool
  | .ok _ => true
  | .error _ => false

/-- `MessagePassing.supports_fused_format` (source lines 100-101). -/
def supports_fused_format (e : Engine) : Bool :=
  e.implemented.contains "message_and_aggregate"

/-- `MessagePassing.supports_sparse_format` (source lines 103-105):
`message` implemented and (`aggregate` implemented or `self.aggr` truthy). -/
def supports_sparse_format (e : Engine) : Bool :=
  e.implemented.contains "message" &&
    (e.implemented.contains "aggregate" || pyTruthyAggr e.aggr)

/-- `MessagePassing.supports_partial_format` (source lines 107-109). -/
def supports_partial_format (e : Engine) : Bool :=
  e.implemented.contains "partial_message" &&
    (e.implemented.contains "partial_aggregate" || pyTruthyAggr e.aggr)

/-- What `get_mp_format` (source lines 138-177) evaluates to.  On success the
source executes `return adj_format, mp_format` (line 177): a PAIR, despite
the declared return type `str`; `ok` carries both components.  On failure the
source executes `return TypeError(...)` (line 171): the exception OBJECT is
handed back as the return value, never raised, so `typeErrorObject` is a
normal return and no raised-exception constructor exists for this
function. -/
inductive MpResult : Type
  | ok (adj_format mp_format : String) : MpResult
  | typeErrorObject (msg : String) : MpResult
  deriving DecidableEq, Repr

/-- The message of the `TypeError` built at source lines 171-173. -/
def mp_err_msg (adj_format : String) : String :=
  "Could not detect a valid message passing implementation for adjacency " ++
  "format \"" ++ adj_format ++ "\"."

/-- One call of `get_mp_format`: its return value, the strategy cache
(`self.__cached_mp_format__`) after the call, and how many times the
derivation chain (the non-cache branches, lines 146-168) ran during the call
— the observable counter the spec puts on the derivation step. -/
structure MpOutcome : Type where
  result : MpResult
  cache : List (String × String)
  derivations : Nat
  deriving DecidableEq, Repr

/-- The `elif` derivation chain of `get_mp_format` (source lines 146-168),
reached only when `adj_format` has no cached strategy: `edge_index` maps to
`"sparse"`; else the user-forced `self.format` when set; else `"fused"` when
the fused hook is implemented; else `"sparse"` / `"partial"` for
`sparse_adj` by capability; else `"partial"` for `dense_adj` by capability;
else nothing (`mp_format` stays `None`). -/
def derive_mp_format (e : Engine) (adj_format : String) : Option String :=
  if adj_format = "edge_index" then some "sparse"
  else if e.format.isSome then e.format
  else if supports_fused_format e then some "fused"
  else if adj_format = "sparse_adj" && supports_sparse_format e then some "sparse"
  else if adj_format = "sparse_adj" && supports_partial_format e then some "partial"
  else if adj_format = "dense_adj" && supports_partial_format e then some "partial"
  else none

/-- `MessagePassing.get_mp_format` (source lines 138-177).  First branch of
the chain (line 142): a cached strategy is reused and the derivation chain is
skipped.  Otherwise the chain `derive_mp_format` runs; if it produced nothing
the `TypeError` object is returned (line 171) BEFORE the cache store, so a
failed call leaves the cache untouched; otherwise the strategy is stored in
the cache (line 175) and the pair `(adj_format, mp_format)` is returned
(line 177).  The cache branch also re-executes the store at line 175 with the
value it just read. -/
def get_mp_format (e : Engine) (cache : List (String × String))
    (adj_format : String) : MpOutcome :=
  match dictGet cache adj_format with
  | some v =>
      { result := .ok adj_format v, cache := dictSet cache adj_format v,
        derivations := 0 }
  | none =>
      match derive_mp_format e adj_format with
      | none =>
          { result := .typeErrorObject (mp_err_msg adj_format), cache := cache,
            derivations := 1 }
      | some v =>
          { result := .ok adj_format v, cache := dictSet cache adj_format v,
            derivations := 1 }

/-- The names defined in the class dictionary of `MessagePassing` itself
(source lines 61-227): the three class attributes and every `def` of the
class body.  No name `get_format` is among them — the source defines only
`get_adj_format` and `get_mp_format` — and neither `torch.nn.Module` nor
`object` provides a `get_format` either, so the attribute lookup
`self.get_format` at source line 182 fails. -/
def messagePassingClassDict : List String :=
  ["AdjType", "adj_formats", "mp_formats", "__init__",
   "supports_fused_format", "supports_sparse_format", "supports_partial_format",
   "get_adj_format", "get_mp_format", "propagate",
   "message_and_aggregate", "message", "aggregate",
   "partial_message", "partial_aggregate", "update",
   "check_consistency", "__repr__"]

/-- What `propagate` (source lines 179-202) does when invoked: raise an
`AttributeError` during an attribute lookup, raise a `TypeError` (the explain
check at lines 188-191 or the flow check at lines 193-200), or fall off the
end of the (truncated) body, returning Python `None`. -/
inductive PropResult : Type
  | attributeError (name : String) : PropResult
  | typeError (msg : String) : PropResult
  | noneReturn : PropResult
  deriving DecidableEq, Repr

/-- The message of the `TypeError` raised at source lines 189-191. -/
def explain_msg : String :=
  "`MessagePassing.propagate` supports `GNNExplainer` capabilties only for " ++
  "\"sparse\" aggregations.`"

/-- The message of the `TypeError` raised at source lines 195-200. -/
def flow_msg : String :=
  "Flow direction \"target_to_source\" is invalid for message passing based " ++
  "on adjacency matrices. If you really want to make use of reverse message " ++
  "passing flow, pass in the transposed adjacency matrix to the message " ++
  "passing module, e.g., `adj_t.t()`."

/-- The body of `propagate` AFTER line 182 (source lines 184-202), given the
`adj_format` and `mp_format` values the call on line 182 would have bound:
under explain mode `mp_format` is forced to `"sparse"` and a `TypeError` is
raised for `dense_adj` or a subclass without sparse support (lines 186-191);
then matrix-based formats combined with `target_to_source` flow raise the
flow `TypeError` (lines 193-200); then the body ends (line 202 is a comment),
returning `None`.  The forced `mp_format` is not read by the remaining
lines. -/
def propagateBody (e : Engine) (adj_format mp_format : String) : PropResult :=
  if e.explain && (adj_format = "dense_adj" || !(supports_sparse_format e)) then
    .typeError explain_msg
  else if (adj_format = "sparse_adj" || adj_format = "dense_adj")
      && e.flow = "target_to_source" then
    .typeError flow_msg
  else
    .noneReturn

/-- `MessagePassing.propagate` (source lines 179-202).  Its first statement
(line 182) is `self.get_format(adj_type)`: an attribute lookup of
`get_format` on the instance, resolved against the class dictionary.  When
the name is absent — as it is in `messagePassingClassDict` — Python raises
`AttributeError` before anything else in the body runs; the
`propagateBody` branch models the rest of the body and is definitionally
unreachable for this class (its format arguments are vacuous: no
`get_format` exists in the source to produce them). -/
def propagate (e : Engine) (adj_type : AdjObj) : PropResult :=
  if messagePassingClassDict.contains "get_format" then
    propagateBody e "" ""
  else
    .attributeError "get_format"

/-- A Python object as it appears in hook default values and in value pools:
`None` (the only default the source's hook signatures use) or an opaque
payload tagged by an integer (standing for tensors and the like). -/
inductive PyObj : Type
  | pyNone : PyObj
  | obj (n : Int) : PyObj
  deriving DecidableEq, Repr

/-- The signature of the bound method `self.message_and_aggregate`
(source lines 204-205) as `inspect.signature` reports it: a bound method's
signature already excludes the `self` binding, so the list is empty. -/
def sig_message_and_aggregate : List (String × Option PyObj) := []

/-- The signature of the bound method `self.message` (source lines 207-208):
no parameters beyond the excluded `self`. -/
def sig_message : List (String × Option PyObj) := []

/-- The signature of the bound method `self.aggregate` (source lines
210-213): `(inputs, index, ptr=None, dim_size=None)` once the bound `self`
is excluded.  `none` in the second component marks a parameter with no
default (`inspect.Parameter.empty`); `some .pyNone` a default of `None`. -/
def sig_aggregate : List (String × Option PyObj) :=
  [("inputs", none), ("index", none),
   ("ptr", some PyObj.pyNone), ("dim_size", some PyObj.pyNone)]

/-- The signature of the bound method `self.partial_message`
(source lines 215-216): no parameters beyond the excluded `self`. -/
def sig_partial_message : List (String × Option PyObj) := []

/-- The signature of the bound method `self.partial_aggregate`
(source lines 218-219): `(inputs)` once the bound `self` is excluded. -/
def sig_partial_aggregate : List (String × Option PyObj) :=
  [("inputs", none)]

/-- The signature of the bound method `self.update` (source lines 221-222):
`(inputs)` once the bound `self` is excluded. -/
def sig_update : List (String × Option PyObj) :=
  [("inputs", none)]

/-- `Inspector.inspect` (source lines 32-38) restricted to what it records:
the ordered (name, default) list of the signature, with the FIRST entry
removed when `pop_first` is true (`params.popitem(last=False)`, line 37).
The source only ever sets `pop_first` on hooks with at least one parameter,
so `popitem`'s KeyError on an empty record is never reached and is not
modelled. -/
def inspectRecord (params : List (String × Option PyObj)) (pop_first : Bool) :
    List (String × Option PyObj) :=
  if pop_first then params.drop 1 else params

/-- `self.inspector.params` after `MessagePassing.__init__` ran its six
`inspect` calls (source lines 86-92): keyed by `func.__name__`, with
`pop_first=True` for `aggregate`, `partial_aggregate` and `update`. -/
def inspectorParams : List (String × List (String × Option PyObj)) :=
  [("message_and_aggregate", inspectRecord sig_message_and_aggregate false),
   ("message", inspectRecord sig_message false),
   ("aggregate", inspectRecord sig_aggregate true),
   ("partial_message", inspectRecord sig_partial_message false),
   ("partial_aggregate", inspectRecord sig_partial_aggregate true),
   ("update", inspectRecord sig_update true)]

/-- `Inspector.distribute` (source lines 46-55), generic in the value type:
walk the hook's recorded parameters in order; for each, take the pool value
when present (`kwargs.get(key, Parameter.empty)`), else the recorded
default; when neither exists, raise
`TypeError(f'Required parameter {key} is empty.')` — this function RAISES
(source line 52), unlike the two format helpers. -/
def distribute {α : Type} (recorded : List (String × Option α))
    (pool : List (String × α)) : Except String (List (String × α)) :=
  match recorded with
  | [] => .ok []
  | (key, dflt) :: rest =>
      match dictGet pool key with
      | some data =>
          match distribute rest pool with
          | .ok out => .ok ((key, data) :: out)
          | .error e => .error e
      | none =>
          match dflt with
          | some d =>
              match distribute rest pool with
              | .ok out => .ok ((key, d) :: out)
              | .error e => .error e
          | none => .error ("Required parameter " ++ key ++ " is empty.")

/-- An engine whose subclass implements only the fused hook
(`message_and_aggregate` alone in the subclass's class dictionary), built
with the constructor defaults `aggr="add"`, `flow="source_to_target"`,
`format=None`, `node_dim=0`, `partial_max_deg=-1`, `partial_binning=True`,
`torchscript=False`. -/
def fusedOnlyEngine : Engine :=
  { aggr := some "add", flow := "source_to_target", format := none,
    node_dim := 0, partial_max_deg := -1, partial_binning := true,
    torchscript := false, implemented := ["message_and_aggregate"],
    explain := false }

/-- An engine whose subclass implements no hook at all (an empty subclass
class dictionary), otherwise built with the constructor defaults. -/
def bareEngine : Engine :=
  { aggr := some "add", flow := "source_to_target", format := none,
    node_dim := 0, partial_max_deg := -1, partial_binning := true,
    torchscript := false, implemented := [], explain := false }

/-- An engine constructed with `flow="target_to_source"` whose subclass
implements `message` (and relies on the default aggregation), otherwise the
constructor defaults. -/
def t2sEngine : Engine :=
  { aggr := some "add", flow := "target_to_source", format := none,
    node_dim := 0, partial_max_deg := -1, partial_binning := true,
    torchscript := false, implemented := ["message"], explain := false }

/-- An engine constructed with the forced strategy `format="dense"` (a value
the constructor's assert accepts) and no hook implemented, otherwise the
constructor defaults. -/
def forcedDenseEngine : Engine :=
  { aggr := some "add", flow := "source_to_target", format := some "dense",
    node_dim := 0, partial_max_deg := -1, partial_binning := true,
    torchscript := false, implemented := [], explain := false }

/-- Updating an association list at a key makes lookup at that key return the
new value. -/
theorem dictGet_dictSet_self {α : Type} (l : List (String × α)) (k : String)
    (v : α) : dictGet (dictSet l k v) k = some v := by
  induction l with
  | nil => simp [dictSet, dictGet]
  | cons p rest ih =>
      obtain ⟨k', v'⟩ := p
      by_cases h : k' = k
      · simp [dictSet, dictGet, h]
      · simp [dictSet, dictGet, h, ih]

/-- Lookup of a key that is not among an association list's keys yields
nothing. -/
theorem dictGet_eq_none {α : Type} (l : List (String × α)) (k : String)
    (h : k ∉ l.map Prod.fst) : dictGet l k = none := by
  induction l with
  | nil => rfl
  | cons p rest ih =>
      obtain ⟨k', v⟩ := p
      simp only [List.map_cons, List.mem_cons] at h
      push_neg at h
      have hne : ¬ k' = k := fun hh => h.1 hh.symm
      simp [dictGet, hne, ih h.2]

/-- A successful `distribute` pairs the recorded parameters, in order, with
the pool value when the pool has the key and with the recorded default
otherwise. -/
theorem distribute_ok_spec {α : Type} (recorded : List (String × Option α))
    (pool : List (String × α)) :
    ∀ out, distribute recorded pool = Except.ok out →
      List.Forall₂ (fun kd ov => ov.1 = kd.1 ∧
          (dictGet pool kd.1 = some ov.2 ∨
            (dictGet pool kd.1 = none ∧ kd.2 = some ov.2))) recorded out := by
  induction recorded with
  | nil =>
      intro out h
      simp only [distribute] at h
      cases h
      exact List.Forall₂.nil
  | cons p rest ih =>
      obtain ⟨key, dflt⟩ := p
      intro out h
      simp only [distribute] at h
      cases hg : dictGet pool key with
      | some data =>
          rw [hg] at h
          cases hr : distribute rest pool with
          | ok out' =>
              rw [hr] at h
              cases h
              exact List.Forall₂.cons ⟨rfl, Or.inl hg⟩ (ih out' hr)
          | error msg => rw [hr] at h; cases h
      | none =>
          rw [hg] at h
          cases dflt with
          | some d =>
              cases hr : distribute rest pool with
              | ok out' =>
                  rw [hr] at h
                  cases h
                  exact List.Forall₂.cons ⟨rfl, Or.inr ⟨hg, rfl⟩⟩ (ih out' hr)
              | error msg => rw [hr] at h; cases h
          | none => cases h

/-- A successful `distribute` returns a frame whose keys are exactly the
recorded parameter names, in recorded order. -/
theorem distribute_keys {α : Type} (recorded : List (String × Option α))
    (pool : List (String × α)) (out : List (String × α))
    (h : distribute recorded pool = Except.ok out) :
    out.map Prod.fst = recorded.map Prod.fst := by
  have h2 := distribute_ok_spec recorded pool out h
  clear h
  induction h2 with
  | nil => rfl
  | cons hrel _ ih => simp only [List.map_cons, hrel.1, ih]

/-- A failing `distribute` names, in its `TypeError` message, a recorded
parameter that has no default and is absent from the pool. -/
theorem distribute_error_spec {α : Type} (recorded : List (String × Option α))
    (pool : List (String × α)) :
    ∀ msg, distribute recorded pool = Except.error msg →
      ∃ k, (k, (none : Option α)) ∈ recorded ∧ dictGet pool k = none ∧
        msg = "Required parameter " ++ k ++ " is empty." := by
  induction recorded with
  | nil => intro msg h; simp only [distribute] at h; cases h
  | cons p rest ih =>
      obtain ⟨key, dflt⟩ := p
      intro msg h
      simp only [distribute] at h
      cases hg : dictGet pool key with
      | some data =>
          rw [hg] at h
          cases hr : distribute rest pool with
          | ok out' => rw [hr] at h; cases h
          | error msg2 =>
              rw [hr] at h
              obtain ⟨k, hk1, hk2, hk3⟩ := ih msg2 hr
              cases h
              exact ⟨k, List.mem_cons_of_mem _ hk1, hk2, hk3⟩
      | none =>
          rw [hg] at h
          cases dflt with
          | some d =>
              cases hr : distribute rest pool with
              | ok out' => rw [hr] at h; cases h
              | error msg2 =>
                  rw [hr] at h
                  obtain ⟨k, hk1, hk2, hk3⟩ := ih msg2 hr
                  cases h
                  exact ⟨k, List.mem_cons_of_mem _ hk1, hk2, hk3⟩
          | none =>
              cases h
              exact ⟨key, List.mem_cons_self _ _, hg, rfl⟩

/-- C1: for an adjacency object that is neither a 2-row long tensor, nor a
`SparseTensor`, nor any other tensor, `get_adj_format` does NOT raise: it
evaluates to the `ValueError` object it builds, returned as an ordinary
value (`AdjFormatReturn` has no raised-exception constructor because no path
of the source function raises); objects matching one of the three formats
classify to exactly the tags `edge_index`, `sparse_adj` and `dense_adj`. -/
theorem C1_classification_eval :
    get_adj_format (AdjObj.tensor ⟨[2, 3], TorchDtype.int64⟩) =
      AdjFormatReturn.tag "edge_index" ∧
    get_adj_format AdjObj.sparseTensor = AdjFormatReturn.tag "sparse_adj" ∧
    get_adj_format (AdjObj.tensor ⟨[3, 3], TorchDtype.float32⟩) =
      AdjFormatReturn.tag "dense_adj" ∧
    get_adj_format (AdjObj.tensor ⟨[2, 3], TorchDtype.float32⟩) =
      AdjFormatReturn.tag "dense_adj" ∧
    get_adj_format AdjObj.nonTensor =
      AdjFormatReturn.valueErrorObject invalid_adj_msg :=
  ⟨rfl, rfl, rfl, rfl, rfl⟩

/-- C2: when no cached value exists for the classified matrix format, no
forced strategy is configured, and none of the capability queries permits a
strategy for that format, `get_mp_format` does NOT raise: it evaluates to
the `TypeError` object built at source line 171, returned as an ordinary
value, leaving the cache untouched (`MpResult` has no raised-exception
constructor because no path of the source function raises). -/
theorem C2_unresolved_returns_error_object (e : Engine)
    (cache : List (String × String)) (f : String)
    (hc : dictGet cache f = none)
    (hf : f = "sparse_adj" ∨ f = "dense_adj")
    (hfmt : e.format = none)
    (hfu : supports_fused_format e = false)
    (hsp : f = "sparse_adj" → supports_sparse_format e = false)
    (hpa : supports_partial_format e = false) :
    get_mp_format e cache f =
      { result := MpResult.typeErrorObject (mp_err_msg f), cache := cache,
        derivations := 1 } := by
  have hd : derive_mp_format e f = none := by
    unfold derive_mp_format
    rcases hf with h | h
    · simp [h, hfmt, hfu, hpa, hsp h]
    · simp [h, hfmt, hfu, hpa]
  unfold get_mp_format
  rw [hc, hd]

/-- Witness for C2: a subclass implementing no hook, with no forced strategy
and an empty cache, on the `sparse_adj` format. -/
theorem C2_unresolved_witness :
    get_mp_format bareEngine [] "sparse_adj" =
      { result := MpResult.typeErrorObject (mp_err_msg "sparse_adj"),
        cache := [], derivations := 1 } :=
  C2_unresolved_returns_error_object bareEngine [] "sparse_adj" rfl
    (Or.inl rfl) rfl rfl (fun _ => rfl) rfl

/-- Counterexample to C3: an engine implementing only the fused hook, with
no forced strategy and an empty cache, resolves the `dense_adj` format to
`fused` — it does not fail with the `TypeError` (UnresolvedStrategy) the
claim requires for dense matrices. -/
theorem C3_counterexample :
    (get_mp_format fusedOnlyEngine [] "dense_adj").result =
      MpResult.ok "dense_adj" "fused" := rfl

/-- C3 (amended): an engine whose subclass implements the fused hook, with
no forced strategy and no cached entry for the format, resolves every
non-edge-list format — `sparse_adj` and `dense_adj` alike — to `fused`: the
`supports_fused_format` branch (source line 154) carries no format guard, so
fused is always preferred when available. -/
theorem C3_fused_always_preferred (e : Engine) (cache : List (String × String))
    (f : String) (hfu : supports_fused_format e = true) (hfmt : e.format = none)
    (hc : dictGet cache f = none) (hne : f ≠ "edge_index") :
    (get_mp_format e cache f).result = MpResult.ok f "fused" := by
  have hd : derive_mp_format e f = some "fused" := by
    unfold derive_mp_format
    simp [hne, hfmt, hfu]
  unfold get_mp_format
  rw [hc, hd]

/-- Witness for C3 (amended): the fused-only engine resolves both matrix
formats to `fused`. -/
theorem C3_fused_always_preferred_witness :
    (get_mp_format fusedOnlyEngine [] "sparse_adj").result =
      MpResult.ok "sparse_adj" "fused" ∧
    (get_mp_format fusedOnlyEngine [] "dense_adj").result =
      MpResult.ok "dense_adj" "fused" :=
  ⟨C3_fused_always_preferred fusedOnlyEngine [] "sparse_adj" rfl rfl rfl
      (by decide),
   C3_fused_always_preferred fusedOnlyEngine [] "dense_adj" rfl rfl rfl
      (by decide)⟩

/-- C4: the class dictionary of `MessagePassing` holds no `get_format` (only
`get_adj_format` and `get_mp_format`), so `propagate` — whose first
statement, source line 182, looks up `self.get_format` — raises
`AttributeError` for every engine state and every adjacency input, before
format classification, explain handling, flow validation or any hook call;
no invocation of `propagate` ever reaches the flow check or returns a
result. -/
theorem C4_propagate_missing_get_format :
    messagePassingClassDict.contains "get_format" = false ∧
    messagePassingClassDict.contains "get_adj_format" = true ∧
    messagePassingClassDict.contains "get_mp_format" = true ∧
    ∀ (e : Engine) (adj : AdjObj),
      propagate e adj = PropResult.attributeError "get_format" :=
  ⟨rfl, rfl, rfl, fun _ _ => rfl⟩

/-- C5: the constructor's assert at source line 83 checks the forced
strategy against `mp_formats + [None]` = `{fused, sparse, dense, None}`:
construction with `format="partial"` fails even though the resolver produces
`"partial"` as a strategy, while `format="dense"` — a value the resolver
never derives — is accepted; the remaining asserts accept the documented
aggregations and flows and reject others and negative node dimensions. -/
theorem C5_forced_strategy_set_swapped :
    exceptOk (initEngine (some "add") "source_to_target" (some "partial")
      0 (-1) true false []) = false ∧
    exceptOk (initEngine (some "add") "source_to_target" (some "dense")
      0 (-1) true false []) = true ∧
    exceptOk (initEngine (some "add") "source_to_target" (some "fused")
      0 (-1) true false []) = true ∧
    exceptOk (initEngine (some "add") "source_to_target" (some "sparse")
      0 (-1) true false []) = true ∧
    exceptOk (initEngine (some "max") "target_to_source" none
      0 (-1) true false []) = true ∧
    exceptOk (initEngine none "source_to_target" none
      0 (-1) true false []) = true ∧
    exceptOk (initEngine (some "bogus") "source_to_target" none
      0 (-1) true false []) = false ∧
    exceptOk (initEngine (some "add") "bogus" none
      0 (-1) true false []) = false ∧
    exceptOk (initEngine (some "add") "source_to_target" none
      (-1) (-1) true false []) = false :=
  ⟨rfl, rfl, rfl, rfl, rfl, rfl, rfl, rfl, rfl⟩

/-- C6: the flow check of `propagate` (source lines 193-200) — modelled by
`propagateBody`, the body after line 182 — would raise the flow `TypeError`
(InvalidFlow) for `sparse_adj` and `dense_adj` under `target_to_source`
flow, for any strategy, and not for `edge_index`; but `propagate` itself
raises `AttributeError` at the `self.get_format` lookup on line 182 before
the flow check can run. -/
theorem C6_flow_check_unreachable (e : Engine) (mp : String)
    (hflow : e.flow = "target_to_source") (hexp : e.explain = false) :
    propagateBody e "sparse_adj" mp = PropResult.typeError flow_msg ∧
    propagateBody e "dense_adj" mp = PropResult.typeError flow_msg ∧
    propagateBody e "edge_index" mp = PropResult.noneReturn ∧
    propagate e AdjObj.sparseTensor = PropResult.attributeError "get_format" := by
  refine ⟨?_, ?_, ?_, rfl⟩ <;> (unfold propagateBody; simp [hflow, hexp])

/-- Witness for C6: an engine with `target_to_source` flow and the `message`
hook implemented. -/
theorem C6_flow_check_witness :
    propagateBody t2sEngine "sparse_adj" "sparse" = PropResult.typeError flow_msg ∧
    propagateBody t2sEngine "dense_adj" "sparse" = PropResult.typeError flow_msg ∧
    propagateBody t2sEngine "edge_index" "sparse" = PropResult.noneReturn ∧
    propagate t2sEngine AdjObj.sparseTensor =
      PropResult.attributeError "get_format" :=
  C6_flow_check_unreachable t2sEngine "sparse" rfl rfl

/-- C7: strategy resolution is idempotent per format on one engine instance.
After a call of `get_mp_format` succeeds for a format (storing the strategy
in `__cached_mp_format__`), every later call for the same format — even
through an engine state whose implemented-hook set or configuration has
changed arbitrarily (`e'`) — returns the same value via the cache branch and
runs the derivation chain zero times. -/
theorem C7_resolution_idempotent (e : Engine) (cache : List (String × String))
    (f a v : String)
    (h : (get_mp_format e cache f).result = MpResult.ok a v) (e' : Engine) :
    (get_mp_format e' (get_mp_format e cache f).cache f).result =
      (get_mp_format e cache f).result ∧
    (get_mp_format e' (get_mp_format e cache f).cache f).derivations = 0 := by
  have hkey : dictGet (get_mp_format e cache f).cache f = some v ∧
      (get_mp_format e cache f).result = MpResult.ok f v := by
    cases hc : dictGet cache f with
    | some w =>
        have heq : get_mp_format e cache f =
            { result := .ok f w, cache := dictSet cache f w, derivations := 0 } := by
          unfold get_mp_format; rw [hc]
        rw [heq] at h ⊢
        simp only [MpResult.ok.injEq] at h
        rw [← h.2]
        exact ⟨dictGet_dictSet_self _ _ _, rfl⟩
    | none =>
        cases hd : derive_mp_format e f with
        | none =>
            have heq : get_mp_format e cache f =
                { result := .typeErrorObject (mp_err_msg f), cache := cache,
                  derivations := 1 } := by
              unfold get_mp_format; rw [hc, hd]
            rw [heq] at h
            cases h
        | some w =>
            have heq : get_mp_format e cache f =
                { result := .ok f w, cache := dictSet cache f w,
                  derivations := 1 } := by
              unfold get_mp_format; rw [hc, hd]
            rw [heq] at h ⊢
            simp only [MpResult.ok.injEq] at h
            rw [← h.2]
            exact ⟨dictGet_dictSet_self _ _ _, rfl⟩
  obtain ⟨hget, hres⟩ := hkey
  rw [hres]
  generalize hc1 : (get_mp_format e cache f).cache = c1 at hget ⊢
  have hsnd : get_mp_format e' c1 f =
      { result := .ok f v, cache := dictSet c1 f v, derivations := 0 } := by
    unfold get_mp_format; rw [hget]
  rw [hsnd]
  exact ⟨rfl, rfl⟩

/-- Witness for C7: the fused-only engine resolves `sparse_adj` to `fused`;
a second call on the resulting cache through a hookless engine still returns
`fused` with zero derivation steps. -/
theorem C7_resolution_idempotent_witness :
    (get_mp_format bareEngine
        (get_mp_format fusedOnlyEngine [] "sparse_adj").cache "sparse_adj").result =
      (get_mp_format fusedOnlyEngine [] "sparse_adj").result ∧
    (get_mp_format bareEngine
        (get_mp_format fusedOnlyEngine [] "sparse_adj").cache "sparse_adj").derivations = 0 :=
  C7_resolution_idempotent fusedOnlyEngine [] "sparse_adj" "sparse_adj" "fused"
    rfl bareEngine

/-- C8: with no cached entry for `edge_index`, `get_mp_format` resolves the
edge-list format to the `sparse` strategy for every engine configuration,
forced strategies included: the `edge_index` branch (source line 146) comes
before the forced-strategy branch (line 150). -/
theorem C8_edge_index_resolves_sparse (e : Engine)
    (cache : List (String × String))
    (hc : dictGet cache "edge_index" = none) :
    (get_mp_format e cache "edge_index").result =
      MpResult.ok "edge_index" "sparse" := by
  unfold get_mp_format
  rw [hc]
  rfl

/-- Witness for C8: an engine with the forced strategy `"dense"` and no
hooks still resolves `edge_index` to `sparse`. -/
theorem C8_edge_index_resolves_sparse_witness :
    (get_mp_format forcedDenseEngine [] "edge_index").result =
      MpResult.ok "edge_index" "sparse" :=
  C8_edge_index_resolves_sparse forcedDenseEngine [] rfl

/-- C9: a successful `distribute` (buildFrame) returns a frame whose keys
are exactly the hook's recorded parameters in order, each bound to the pool
value when the pool has the key and to the recorded default otherwise; a
failing `distribute` raises the `TypeError` naming a parameter that has no
default and is absent from the pool; for parameters `(x, y=5)`, pool
`{x: 10}` yields `{x: 10, y: 5}` and pool `{}` fails naming `x`. -/
theorem C9_buildFrame_spec :
    (∀ (α : Type) (recorded : List (String × Option α))
        (pool out : List (String × α)),
        distribute recorded pool = Except.ok out →
        out.map Prod.fst = recorded.map Prod.fst ∧
        List.Forall₂ (fun kd ov => ov.1 = kd.1 ∧
            (dictGet pool kd.1 = some ov.2 ∨
              (dictGet pool kd.1 = none ∧ kd.2 = some ov.2))) recorded out) ∧
    (∀ (α : Type) (recorded : List (String × Option α))
        (pool : List (String × α)) (msg : String),
        distribute recorded pool = Except.error msg →
        ∃ k, (k, (none : Option α)) ∈ recorded ∧ dictGet pool k = none ∧
          msg = "Required parameter " ++ k ++ " is empty.") ∧
    distribute [("x", (none : Option Int)), ("y", some 5)] [("x", 10)] =
      Except.ok [("x", 10), ("y", 5)] ∧
    distribute [("x", (none : Option Int)), ("y", some 5)] [] =
      Except.error "Required parameter x is empty." := by
  refine ⟨?_, ?_, rfl, rfl⟩
  · intro α recorded pool out h
    exact ⟨distribute_keys recorded pool out h, distribute_ok_spec recorded pool out h⟩
  · intro α recorded pool msg h
    exact distribute_error_spec recorded pool msg h

/-- Witness for C9: the frame for parameters `(x, y=5)` and pool `{x : 10}`
has exactly the keys `x, y`. -/
theorem C9_buildFrame_witness :
    ([("x", (10 : Int)), ("y", 5)]).map Prod.fst =
      ([("x", (none : Option Int)), ("y", some 5)]).map Prod.fst :=
  (C9_buildFrame_spec.1 Int [("x", none), ("y", some 5)] [("x", 10)]
      [("x", 10), ("y", 5)] rfl).1

/-- C10: the six hooks are inspected as bound methods (their signatures
already exclude `self`), so `pop_first=True` removes the first DECLARED data
parameter, `inputs`, from `aggregate`, `partial_aggregate` and `update`:
after construction `update`'s recorded parameter list is empty, `aggregate`
records only `(index, ptr=None, dim_size=None)`, and a frame built for
`aggregate` or `partial_aggregate` never contains an `inputs` entry,
whatever the value pool holds. -/
theorem C10_pop_first_drops_inputs :
    dictGet inspectorParams "update" = some [] ∧
    dictGet inspectorParams "partial_aggregate" = some [] ∧
    dictGet inspectorParams "aggregate" =
      some [("index", none), ("ptr", some PyObj.pyNone),
            ("dim_size", some PyObj.pyNone)] ∧
    (∀ (pool out : List (String × PyObj)),
        distribute [("index", (none : Option PyObj)),
          ("ptr", some PyObj.pyNone), ("dim_size", some PyObj.pyNone)] pool =
          Except.ok out →
        dictGet out "inputs" = none) ∧
    (∀ (pool out : List (String × PyObj)),
        distribute ([] : List (String × Option PyObj)) pool = Except.ok out →
        dictGet out "inputs" = none) := by
  refine ⟨rfl, rfl, rfl, ?_, ?_⟩
  · intro pool out h
    apply dictGet_eq_none
    rw [distribute_keys _ _ _ h]
    decide
  · intro pool out h
    simp only [distribute] at h
    cases h
    rfl

/-- Witness for C10: the frame built for `aggregate` from a pool that even
supplies an `inputs` value holds no `inputs` entry. -/
theorem C10_pop_first_witness :
    dictGet [("index", PyObj.obj 1), ("ptr", PyObj.pyNone),
      ("dim_size", PyObj.pyNone)] "inputs" = none :=
  C10_pop_first_drops_inputs.2.2.2.1
    [("index", PyObj.obj 1), ("inputs", PyObj.obj 7)]
    [("index", PyObj.obj 1), ("ptr", PyObj.pyNone), ("dim_size", PyObj.pyNone)]
    rfl
